import Mathlib

/-!
Verification of the PUDL datastore subsystem (`src/pudl/workspace/datastore.py`):
the `DatapackageDescriptor` resource model and partition filtering, the
`ZenodoFetcher` remote client (checksum validation and HTTP retry policy),
and `Datastore.get_resources` cache interaction.

Python values appearing in resource `parts` mappings and in filter arguments
are modelled by `PVal`; byte strings by `List Nat`; the `requests` /
`urllib3` HTTP stack by explicit traces of attempt outcomes.
-/

/-- A Python value usable as a partition value or filter value:
a string, an integer, or `None`. -/
inductive PVal where
  | vStr (s : String)
  | vInt (n : Int)
  | vNone
deriving Repr, DecidableEq

/-- Python `str(·)` coercion on `PVal` (`str(2020) = "2020"`, `str(None) = "None"`). -/
def pyStr : PVal → String
  | .vStr s => s
  | .vInt n => toString n
  | .vNone => "None"

/-- Python `str(d.get(k))` where `d.get(k)` may be `None` (absent key). -/
def pyStrOpt : Option PVal → String
  | none => "None"
  | some v => pyStr v

/-- Modelled from the spec: `PudlResourceKey` lives in the absent
`pudl/workspace/resource_cache.py`; spec section 3 defines it as the triple
(dataset, version/doi, name) with equality on all three fields. -/
structure PudlResourceKey where
  dataset : String
  doi : String
  name : String
deriving Repr, DecidableEq

/-- One entry of the `resources` list of a `datapackage.json` document:
name, optional `remote_url` and `path` locators, md5 `hash`, and the
`parts` partition mapping (from `DatapackageDescriptor` usage in
`datastore.py`). -/
structure Resource where
  name : String
  remote_url : Option String
  path : Option String
  hash : String
  parts : List (String × PVal)
deriving Repr, DecidableEq

/-- `DatapackageDescriptor`: parsed `datapackage.json` contents together with
the dataset name and doi it was constructed with. -/
structure DatapackageDescriptor where
  dataset : String
  doi : String
  resources : List Resource
deriving Repr, DecidableEq

/-- Python dict `.get` on the `parts` mapping (keys are unique, so first
match suffices). -/
def partsGet (parts : List (String × PVal)) (k : String) : Option PVal :=
  (parts.find? (fun p => p.1 == k)).map (·.2)

/-- `DatapackageDescriptor._matches`: every filter entry `(k, v)` must satisfy
`str(parts.get(k)) == str(v)`. -/
def descMatches (parts : List (String × PVal)) (filters : List (String × PVal)) : Bool :=
  filters.all (fun kv => pyStrOpt (partsGet parts kv.1) == pyStr kv.2)

/-- Python truthiness test `if name and res["name"] != name` in
`DatapackageDescriptor.get_resources`: the resource is skipped when `name`
is truthy (neither `None` nor `""`) and differs from the resource name. -/
def nameFilterSkip (name : Option String) (resName : String) : Bool :=
  match name with
  | none => false
  | some n => !(n == "") && !(resName == n)

/-- `DatapackageDescriptor.get_resources(name, **filters)`: keys of resources
passing the name filter and `_matches`, in descriptor order. -/
def descGetResources (desc : DatapackageDescriptor) (name : Option String)
    (filters : List (String × PVal)) : List PudlResourceKey :=
  desc.resources.filterMap fun res =>
    if nameFilterSkip name res.name then none
    else if descMatches res.parts filters then
      some ⟨desc.dataset, desc.doi, res.name⟩
    else none

/-- The spec's wording of the filter-matching condition: the `parts` mapping
matches every supplied filter entry under string equality after string
coercion of both sides. -/
def specFilterMatch (parts : List (String × PVal)) (filters : List (String × PVal)) : Prop :=
  ∀ kv ∈ filters, pyStrOpt (partsGet parts kv.1) = pyStr kv.2

/-- Example descriptor from the spec: resources `a` with `parts {year: "2020"}`
and `b` with `parts {year: "2021"}`. -/
def exFilterDesc : DatapackageDescriptor :=
  ⟨"exds", "exdoi",
    [⟨"a", none, some "url-a", "md5a", [("year", .vStr "2020")]⟩,
     ⟨"b", none, some "url-b", "md5b", [("year", .vStr "2021")]⟩]⟩

theorem descMatches_iff_specFilterMatch (parts filters : List (String × PVal)) :
    descMatches parts filters = true ↔ specFilterMatch parts filters := by
  simp [descMatches, specFilterMatch, List.all_eq_true]

/-- C3: with `name = None`, `get_resources` produces exactly the keys of
descriptor resources whose `parts` matches every filter entry under string
equality after coercion of both sides; numeric and string filter values are
interchangeable; on the spec's two-resource example, filtering on
`year = "2020"` yields exactly the key named `a`. -/
theorem c3_get_resources_filtering :
    (∀ (desc : DatapackageDescriptor) (filters : List (String × PVal)) (k : PudlResourceKey),
       k ∈ descGetResources desc none filters ↔
         ∃ res ∈ desc.resources,
           k = ⟨desc.dataset, desc.doi, res.name⟩ ∧ specFilterMatch res.parts filters)
    ∧ (∀ (parts : List (String × PVal)) (key : String) (n : Int),
         descMatches parts [(key, .vInt n)] = descMatches parts [(key, .vStr (toString n))])
    ∧ descGetResources exFilterDesc none [("year", .vStr "2020")]
        = [⟨"exds", "exdoi", "a"⟩] := by
  refine ⟨?_, ?_, ?_⟩
  · intro desc filters k
    constructor
    · intro hk
      rcases List.mem_filterMap.mp hk with ⟨res, hres, hsome⟩
      simp only [nameFilterSkip, if_false] at hsome
      by_cases hm : descMatches res.parts filters = true
      · refine ⟨res, hres, ?_, (descMatches_iff_specFilterMatch _ _).mp hm⟩
        simp [hm] at hsome
        exact hsome.symm
      · simp [hm] at hsome
    · rintro ⟨res, hres, rfl, hmatch⟩
      refine List.mem_filterMap.mpr ⟨res, hres, ?_⟩
      simp [nameFilterSkip, (descMatches_iff_specFilterMatch _ _).mpr hmatch]
  · intro parts key n
    simp [descMatches, pyStr]
  · rfl

/-! ## HTTP retry policy (`ZenodoFetcher.__init__` / `_fetch_from_url`) -/

/-- Errors surfaced by the fetcher and datastore:
`checksumMismatch` for `ChecksumMismatch`, `keyError` for Python `KeyError`,
`remoteFetchFailed` for the `ValueError` raised by `_fetch_from_url` on a
non-200 response (carrying the response body), and `retryExhausted` for the
`RetryError` raised once the urllib3 retry budget is spent. -/
inductive DsError where
  | checksumMismatch (msg : String)
  | keyError (msg : String)
  | remoteFetchFailed (body : List Nat)
  | retryExhausted
deriving Repr, DecidableEq

/-- Outcome of one HTTP request attempt: a response with a status code and
body, or a connection-level failure. -/
inductive Attempt where
  | status (code : Nat) (body : List Nat)
  | connFailure
deriving Repr, DecidableEq

/-- The `status_forcelist` of the `Retry` object built in
`ZenodoFetcher.__init__`. -/
def status_forcelist : List Nat := [429, 500, 502, 503, 504]

/-- The `total` retry budget of the `Retry` object (`total=3`). -/
def retry_total : Nat := 3

/-- The `backoff_factor` of the `Retry` object (`backoff_factor=2`). -/
def retry_backoff_factor : Nat := 2

/-- Modelled from the spec: urllib3 `Retry.get_backoff_time` for the
configured policy — no delay before the first retry, then
`backoff_factor * 2^(n-1)` seconds before the `n`-th consecutive retry
(exponential backoff, spec section 4.4). -/
def get_backoff_time (consecutiveErrors : Nat) : Nat :=
  if consecutiveErrors ≤ 1 then 0
  else retry_backoff_factor * 2 ^ (consecutiveErrors - 1)

/-- Result of a session-level `get`: a response actually delivered to
`_fetch_from_url`, or exhaustion of the retry budget. -/
inductive SessionResult where
  | response (code : Nat) (body : List Nat)
  | exhausted
deriving Repr, DecidableEq

/-- Modelled from the spec: the urllib3 retry loop as configured in
`ZenodoFetcher.__init__` (spec section 4.4). A response whose status is in
`status_forcelist`, or a connection-level failure, consumes one unit of the
retry budget and the next attempt in the trace is tried; any other response
is delivered as-is. With budget 0 a retryable outcome raises the
budget-exhausted error. The trace lists what the server does on successive
requests. -/
def session_get : Nat → List Attempt → SessionResult
  | _, [] => .exhausted
  | retriesLeft, .status code body :: rest =>
      if code ∈ status_forcelist then
        match retriesLeft with
        | 0 => .exhausted
        | n + 1 => session_get n rest
      else .response code body
  | retriesLeft, .connFailure :: rest =>
      match retriesLeft with
      | 0 => .exhausted
      | n + 1 => session_get n rest

/-- `ZenodoFetcher._fetch_from_url`: issue the request through the retrying
session; return the body on HTTP 200, otherwise raise `ValueError` carrying
the response body (`RemoteFetchFailed` in the spec's taxonomy). -/
def fetch_from_url (attempts : List Attempt) : Except DsError (List Nat) :=
  match session_get retry_total attempts with
  | .exhausted => .error .retryExhausted
  | .response code body =>
      if code == 200 then .ok body else .error (.remoteFetchFailed body)

/-- An attempt outcome that the configured `Retry` policy retries:
a forcelisted status or a connection-level failure. -/
def retryableOutcome : Attempt → Prop
  | .status code _ => code ∈ status_forcelist
  | .connFailure => True

theorem session_get_retry_step (a : Attempt) (rest : List Attempt) (n : Nat)
    (h : retryableOutcome a) :
    session_get (n + 1) (a :: rest) = session_get n rest := by
  cases a with
  | status code body =>
      simp only [retryableOutcome] at h
      simp [session_get, h]
  | connFailure => simp [session_get]

theorem session_get_zero_budget (a : Attempt) (rest : List Attempt)
    (h : retryableOutcome a) :
    session_get 0 (a :: rest) = .exhausted := by
  cases a with
  | status code body =>
      simp only [retryableOutcome] at h
      simp [session_get, h]
  | connFailure => simp [session_get]

/-- C2: forcelisted statuses (429, 500, 502, 503, 504) and connection
failures are retried up to the budget of 3 configured in
`ZenodoFetcher.__init__`, with exponentially growing backoff; any other
non-200 status is delivered at once and `_fetch_from_url` fails immediately
with the error carrying the response body; in particular a 404 fails on the
first attempt with no retry, and 503-503-200 succeeds within the budget. -/
theorem c2_retry_policy :
    (∀ (code : Nat) (body : List Nat) (rest : List Attempt),
       code ∉ status_forcelist → code ≠ 200 →
       fetch_from_url (.status code body :: rest) = .error (.remoteFetchFailed body))
    ∧ (∀ (body : List Nat) (rest : List Attempt),
         fetch_from_url (.status 404 body :: rest) = .error (.remoteFetchFailed body))
    ∧ (∀ (b1 b2 content : List Nat) (rest : List Attempt),
         fetch_from_url (.status 503 b1 :: .status 503 b2 :: .status 200 content :: rest)
           = .ok content)
    ∧ (∀ (a1 a2 a3 : Attempt) (content : List Nat) (rest : List Attempt),
         retryableOutcome a1 → retryableOutcome a2 → retryableOutcome a3 →
         fetch_from_url (a1 :: a2 :: a3 :: .status 200 content :: rest) = .ok content)
    ∧ (∀ (a1 a2 a3 a4 : Attempt) (rest : List Attempt),
         retryableOutcome a1 → retryableOutcome a2 → retryableOutcome a3 →
         retryableOutcome a4 →
         fetch_from_url (a1 :: a2 :: a3 :: a4 :: rest) = .error .retryExhausted)
    ∧ (∀ n : Nat, 2 ≤ n → get_backoff_time (n + 1) = 2 * get_backoff_time n) := by
  refine ⟨?_, ?_, ?_, ?_, ?_, ?_⟩
  · intro code body rest hnot h200
    have hcode : (code == 200) = false := by
      simpa using h200
    simp [fetch_from_url, session_get, retry_total, hnot, hcode]
  · intro body rest
    simp [fetch_from_url, session_get, retry_total, status_forcelist]
  · intro b1 b2 content rest
    simp [fetch_from_url, session_get, retry_total, status_forcelist]
  · intro a1 a2 a3 content rest h1 h2 h3
    show fetch_from_url _ = _
    rw [fetch_from_url, retry_total,
        session_get_retry_step a1 _ _ h1,
        session_get_retry_step a2 _ _ h2,
        session_get_retry_step a3 _ _ h3]
    simp [session_get, status_forcelist]
  · intro a1 a2 a3 a4 rest h1 h2 h3 h4
    rw [fetch_from_url, retry_total,
        session_get_retry_step a1 _ _ h1,
        session_get_retry_step a2 _ _ h2,
        session_get_retry_step a3 _ _ h3,
        session_get_zero_budget a4 _ h4]
  · intro n hn
    have h1 : ¬ n + 1 ≤ 1 := by omega
    have h2 : ¬ n ≤ 1 := by omega
    simp only [get_backoff_time, if_neg h1, if_neg h2, retry_backoff_factor]
    have : n - 1 + 1 = n + 1 - 1 := by omega
    rw [← this, pow_succ]
    ring

theorem r503 : retryableOutcome (.status 503 []) := by
  simp [retryableOutcome, status_forcelist]

/-- Concrete instantiation of `c2_retry_policy`: a 404 body is surfaced
without retry, three 503 responses then a 200 succeed within the budget,
and four 503 responses exhaust it. -/
theorem c2_retry_policy_witness :
    fetch_from_url [.status 404 [9, 9]] = .error (.remoteFetchFailed [9, 9])
    ∧ fetch_from_url [.status 503 [], .status 503 [], .status 503 [], .status 200 [7]]
        = .ok [7]
    ∧ fetch_from_url [.status 503 [], .status 503 [], .status 503 [], .status 503 [],
        .status 200 [7]] = .error .retryExhausted :=
  ⟨c2_retry_policy.2.1 [9, 9] [],
   c2_retry_policy.2.2.2.1 (.status 503 []) (.status 503 []) (.status 503 []) [7] []
     r503 r503 r503,
   c2_retry_policy.2.2.2.2.1 (.status 503 []) (.status 503 []) (.status 503 [])
     (.status 503 []) [.status 200 [7]] r503 r503 r503 r503⟩

/-! ## Checksum validation and resource retrieval (`ZenodoFetcher`) -/

/-- `DatapackageDescriptor._get_resource_metadata`: returns the first resource
entry with the given name, or raises `KeyError`. -/
def get_resource_metadata (desc : DatapackageDescriptor) (name : String) :
    Except DsError Resource :=
  match desc.resources.find? (fun r => r.name == name) with
  | some r => .ok r
  | none => .error (.keyError s!"Resource {name} not found for {desc.dataset}/{desc.doi}")

/-- Python `a or b` on optional strings: `b` when `a` is `None` or `""`. -/
def pyOrStr (a b : Option String) : Option String :=
  match a with
  | some s => if s == "" then b else some s
  | none => b

/-- `DatapackageDescriptor.get_resource_path`:
`res.get("remote_url") or res.get("path")`. -/
def get_resource_path (desc : DatapackageDescriptor) (name : String) :
    Except DsError (Option String) :=
  match get_resource_metadata desc name with
  | .error e => .error e
  | .ok r => .ok (pyOrStr r.remote_url r.path)

/-- The message of the `ChecksumMismatch` raised by `validate_checksum`. -/
def checksumMismatchMsg (name expected got : String) : String :=
  s!"Checksum for resource {name} does not match.Expected {expected}, got {got}"

/-- `DatapackageDescriptor.validate_checksum`: raise `ChecksumMismatch` when
the md5 hex digest of the content differs from the recorded hash. The md5
hex-digest function (`hashlib`, external to the repository) is passed in as
`md5hex`. -/
def validate_checksum (md5hex : List Nat → String) (desc : DatapackageDescriptor)
    (name : String) (content : List Nat) : Except DsError Unit :=
  match get_resource_metadata desc name with
  | .error e => .error e
  | .ok r =>
      if md5hex content == r.hash then .ok ()
      else .error (.checksumMismatch (checksumMismatchMsg name r.hash (md5hex content)))

/-- `ZenodoFetcher.get_resource`: resolve the descriptor for the key's
dataset, resolve the resource's url, fetch the bytes, validate the checksum,
and return the bytes. `getDesc` stands for `self.get_descriptor` (whose
network/caching behaviour is orthogonal to the fetched resource), and `net`
for `self._fetch_from_url(url).content`. -/
def get_resource (md5hex : List Nat → String)
    (getDesc : String → Except DsError DatapackageDescriptor)
    (net : Option String → Except DsError (List Nat))
    (res : PudlResourceKey) : Except DsError (List Nat) :=
  match getDesc res.dataset with
  | .error e => .error e
  | .ok desc =>
      match get_resource_path desc res.name with
      | .error e => .error e
      | .ok url =>
          match net url with
          | .error e => .error e
          | .ok content =>
              match validate_checksum md5hex desc res.name content with
              | .error e => .error e
              | .ok _ => .ok content

/-! ## Cache layers (modelled from the spec) -/

/-- One cache layer's contents as a key-to-bytes association list. -/
abbrev CacheLayer := List (PudlResourceKey × List Nat)

/-- Modelled from the spec: `LayeredCache` from the absent
`pudl/workspace/resource_cache.py` is an ordered sequence of cache layers
(spec sections 4.2 and 4.3); each layer owns its own entries. -/
abbrev LayeredCache := List CacheLayer

/-- A single layer contains a key (spec section 4.2 `contains`). -/
def layerContains (l : CacheLayer) (k : PudlResourceKey) : Bool :=
  l.any (fun p => p.1 == k)

/-- A single layer's lookup (spec section 4.2 `get`). -/
def layerGet (l : CacheLayer) (k : PudlResourceKey) : Option (List Nat) :=
  (l.find? (fun p => p.1 == k)).map (·.2)

/-- A single layer's idempotent overwrite (spec section 4.2 `put`). -/
def layerPut (l : CacheLayer) (k : PudlResourceKey) (v : List Nat) : CacheLayer :=
  (k, v) :: l.filter (fun p => !(p.1 == k))

/-- Modelled from the spec: `LayeredCache.contains` is true when any layer
contains the key (spec section 4.3). -/
def lcContains (c : LayeredCache) (k : PudlResourceKey) : Bool :=
  c.any (fun l => layerContains l k)

/-- Modelled from the spec: `LayeredCache.is_optimally_cached` is true iff
the first (highest-priority) layer contains the key; with no layers it
degrades to false (spec section 4.3). -/
def lcIsOptimallyCached (c : LayeredCache) (k : PudlResourceKey) : Bool :=
  match c with
  | [] => false
  | l :: _ => layerContains l k

/-- Modelled from the spec: `LayeredCache.add` writes the entry into every
layer (spec section 4.3 `put`). -/
def lcAdd (c : LayeredCache) (k : PudlResourceKey) (v : List Nat) : LayeredCache :=
  c.map (fun l => layerPut l k v)

/-- Modelled from the spec: `LayeredCache.get` checks layers in priority
order; the first hit supplies the bytes and every higher-priority layer that
missed is backfilled with them (spec section 4.3). Returns the bytes found
(none when absent everywhere) together with the updated layers. -/
def lcGet : LayeredCache → PudlResourceKey → Option (List Nat) × LayeredCache
  | [], _ => (none, [])
  | l :: rest, k =>
      match layerGet l k with
      | some v => (some v, l :: rest)
      | none =>
          match lcGet rest k with
          | (some v, rest') => (some v, layerPut l k v :: rest')
          | (none, rest') => (none, l :: rest')

/-- No cache layer holds an entry for the key. -/
def lcAbsent (c : LayeredCache) (k : PudlResourceKey) : Prop :=
  ∀ l ∈ c, layerContains l k = false

/-! ## `Datastore.get_resources` -/

/-- The observable outcome of iterating `Datastore.get_resources` to the end:
the pairs it yielded, the final cache state, and the exception (if any) that
terminated the iteration. -/
structure DsRun where
  yields : List (PudlResourceKey × List Nat)
  cache : LayeredCache
  err : Option DsError
deriving Repr, DecidableEq

/-- The per-key loop of `Datastore.get_resources`: skip optimally cached keys
when asked to, serve cache hits through `LayeredCache.get`, otherwise (unless
`cached_only`) fetch from zenodo, add to the cache, and yield; an exception
from the fetch aborts the iteration. -/
def ds_loop (md5hex : List Nat → String)
    (getDesc : String → Except DsError DatapackageDescriptor)
    (net : Option String → Except DsError (List Nat))
    (cached_only skip_optimally_cached : Bool) :
    LayeredCache → List PudlResourceKey → DsRun
  | cache, [] => ⟨[], cache, none⟩
  | cache, res :: rest =>
      if lcIsOptimallyCached cache res && skip_optimally_cached then
        ds_loop md5hex getDesc net cached_only skip_optimally_cached cache rest
      else if lcContains cache res then
        match lcGet cache res with
        | (some v, cache') =>
            let r := ds_loop md5hex getDesc net cached_only skip_optimally_cached cache' rest
            ⟨(res, v) :: r.yields, r.cache, r.err⟩
        | (none, cache') => ⟨[], cache', some (.keyError "resource not in cache")⟩
      else if !cached_only then
        match get_resource md5hex getDesc net res with
        | .error e => ⟨[], cache, some e⟩
        | .ok contents =>
            let cache' := lcAdd cache res contents
            let r := ds_loop md5hex getDesc net cached_only skip_optimally_cached cache' rest
            ⟨(res, contents) :: r.yields, r.cache, r.err⟩
      else ds_loop md5hex getDesc net cached_only skip_optimally_cached cache rest

/-- `Datastore.get_resources(dataset, cached_only, skip_optimally_cached,
**filters)`: enumerate the descriptor's matching keys (no name filter) and
run the retrieval loop over them. The descriptor resolved by
`get_datapackage_descriptor` is passed in as `desc`. -/
def ds_get_resources (md5hex : List Nat → String)
    (getDesc : String → Except DsError DatapackageDescriptor)
    (net : Option String → Except DsError (List Nat))
    (desc : DatapackageDescriptor) (cached_only skip_optimally_cached : Bool)
    (filters : List (String × PVal)) (cache : LayeredCache) : DsRun :=
  ds_loop md5hex getDesc net cached_only skip_optimally_cached cache
    (descGetResources desc none filters)

theorem layerPut_absent (l : CacheLayer) (k : PudlResourceKey) (v : List Nat)
    (res : PudlResourceKey) (hk : k ≠ res) (h : layerContains l res = false) :
    layerContains (layerPut l k v) res = false := by
  simp only [layerContains, List.any_eq_false] at h ⊢
  intro p hp
  rcases List.mem_cons.mp hp with rfl | hp'
  · simpa using hk
  · exact h p (List.mem_filter.mp hp').1

theorem lcGet_absent (res : PudlResourceKey) :
    ∀ (c : LayeredCache) (k : PudlResourceKey), k ≠ res → lcAbsent c res →
      lcAbsent (lcGet c k).2 res := by
  intro c
  induction c with
  | nil => intro k _ h; simpa [lcGet] using h
  | cons l rest ih =>
    intro k hk h
    have hl : layerContains l res = false := h l (List.mem_cons_self _ _)
    have hrest : lcAbsent rest res := fun l' hl' => h l' (List.mem_cons_of_mem _ hl')
    have hrec := ih k hk hrest
    rcases hget : layerGet l k with _ | v
    · rcases hrec2 : lcGet rest k with ⟨v?, rest'⟩
      rw [hrec2] at hrec
      rcases v? with _ | b
      · show lcAbsent (lcGet (l :: rest) k).2 res
        simp only [lcGet, hget, hrec2]
        intro l' hl'
        rcases List.mem_cons.mp hl' with rfl | h'
        · exact hl
        · exact hrec l' h'
      · show lcAbsent (lcGet (l :: rest) k).2 res
        simp only [lcGet, hget, hrec2]
        intro l' hl'
        rcases List.mem_cons.mp hl' with rfl | h'
        · exact layerPut_absent l k b res hk hl
        · exact hrec l' h'
    · show lcAbsent (lcGet (l :: rest) k).2 res
      simp only [lcGet, hget]
      exact h

theorem lcAdd_absent (c : LayeredCache) (k : PudlResourceKey) (v : List Nat)
    (res : PudlResourceKey) (hk : k ≠ res) (h : lcAbsent c res) :
    lcAbsent (lcAdd c k v) res := by
  intro l' hl'
  rcases List.mem_map.mp hl' with ⟨l, hl, rfl⟩
  exact layerPut_absent l k v res hk (h l hl)

theorem lcAbsent_contains (c : LayeredCache) (res : PudlResourceKey)
    (h : lcAbsent c res) : lcContains c res = false := by
  simp only [lcContains, List.any_eq_false]
  intro l hl
  simp [h l hl]

/-- If every zenodo fetch of the key `res` raises, then running the
`Datastore.get_resources` loop over any key list, starting from a cache with
no entry for `res` in any layer, ends with a cache that still has no entry
for `res` in any layer. -/
theorem ds_loop_absent (md5hex : List Nat → String)
    (getDesc : String → Except DsError DatapackageDescriptor)
    (net : Option String → Except DsError (List Nat)) (co so : Bool)
    (res : PudlResourceKey)
    (herr : ∀ v, get_resource md5hex getDesc net res ≠ .ok v) :
    ∀ (keys : List PudlResourceKey) (cache : LayeredCache), lcAbsent cache res →
      lcAbsent (ds_loop md5hex getDesc net co so cache keys).cache res := by
  intro keys
  induction keys with
  | nil => intro cache h; simpa [ds_loop] using h
  | cons k rest ih =>
    intro cache h
    show lcAbsent (ds_loop md5hex getDesc net co so cache (k :: rest)).cache res
    simp only [ds_loop]
    by_cases h1 : (lcIsOptimallyCached cache k && so) = true
    · rw [if_pos h1]
      exact ih cache h
    · rw [if_neg h1]
      by_cases h2 : lcContains cache k = true
      · rw [if_pos h2]
        have hkres : k ≠ res := fun heq => by
          rw [heq, lcAbsent_contains cache res h] at h2
          exact Bool.false_ne_true h2
        have habs := lcGet_absent res cache k hkres h
        rcases hget : lcGet cache k with ⟨v?, cache'⟩
        rw [hget] at habs
        rcases v? with _ | v
        · simp only [hget]
          exact habs
        · simp only [hget]
          exact ih cache' habs
      · rw [if_neg h2]
        by_cases hco : (!co) = true
        · rw [if_pos hco]
          by_cases hkres : k = res
          · rcases hr : get_resource md5hex getDesc net k with e | v
            · simp only [hr]
              exact h
            · rw [hkres] at hr
              exact absurd hr (herr v)
          · rcases hr : get_resource md5hex getDesc net k with e | v
            · simp only [hr]
              exact h
            · simp only [hr]
              exact ih (lcAdd cache k v) (lcAdd_absent cache k v res hkres h)
        · rw [if_neg hco]
          exact ih cache h

/-- C1: when the descriptor-recorded checksum of a resource differs from the
md5 hex digest of the fetched bytes, `ZenodoFetcher.get_resource` raises
`ChecksumMismatch`, and `Datastore.get_resources` (whose cache add happens
only after a successful, checksum-validated fetch) writes nothing for that
key into any cache layer. -/
theorem c1_checksum_mismatch_not_cached (md5hex : List Nat → String)
    (getDesc : String → Except DsError DatapackageDescriptor)
    (net : Option String → Except DsError (List Nat))
    (desc : DatapackageDescriptor) (res : PudlResourceKey) (meta : Resource)
    (content : List Nat) (cache : LayeredCache) (co so : Bool)
    (filters : List (String × PVal))
    (h1 : getDesc res.dataset = .ok desc)
    (h2 : get_resource_metadata desc res.name = .ok meta)
    (h3 : net (pyOrStr meta.remote_url meta.path) = .ok content)
    (h4 : md5hex content ≠ meta.hash)
    (h5 : lcAbsent cache res) :
    get_resource md5hex getDesc net res
      = .error (.checksumMismatch
          (checksumMismatchMsg res.name meta.hash (md5hex content)))
    ∧ lcAbsent (ds_get_resources md5hex getDesc net desc co so filters cache).cache res := by
  have hbeq : (md5hex content == meta.hash) = false := by
    simpa using h4
  have hval : validate_checksum md5hex desc res.name content
      = .error (.checksumMismatch
          (checksumMismatchMsg res.name meta.hash (md5hex content))) := by
    simp [validate_checksum, h2, hbeq]
  have hpath : get_resource_path desc res.name = .ok (pyOrStr meta.remote_url meta.path) := by
    simp [get_resource_path, h2]
  have ha : get_resource md5hex getDesc net res
      = .error (.checksumMismatch
          (checksumMismatchMsg res.name meta.hash (md5hex content))) := by
    simp [get_resource, h1, hpath, h3, hval]
  refine ⟨ha, ?_⟩
  exact ds_loop_absent md5hex getDesc net co so res
    (fun v hv => by rw [ha] at hv; exact Except.noConfusion hv) _ cache h5

/-- Descriptor for the concrete instantiation of the checksum-mismatch
scenario: one resource `a` with recorded hash `"abcd"`. -/
def exC1Desc : DatapackageDescriptor := ⟨"ds1", "doi1", [⟨"a", none, some "u", "abcd", []⟩]⟩

/-- An md5 stand-in that digests every byte string to `"ffff"`. -/
def exC1Md5 : List Nat → String := fun _ => "ffff"

/-- A descriptor resolver that always returns `exC1Desc`. -/
def exC1GetDesc : String → Except DsError DatapackageDescriptor := fun _ => .ok exC1Desc

/-- A network that returns the bytes `[1, 2]` for every url. -/
def exC1Net : Option String → Except DsError (List Nat) := fun _ => .ok [1, 2]

/-- The key of resource `a` of `exC1Desc`. -/
def exC1Key : PudlResourceKey := ⟨"ds1", "doi1", "a"⟩

/-- Concrete instantiation of `c1_checksum_mismatch_not_cached`: fetching
resource `a` (digest `"ffff"`, recorded hash `"abcd"`) raises
`ChecksumMismatch` and a one-layer cache that was empty stays without an
entry for the key. -/
theorem c1_checksum_mismatch_not_cached_witness :
    get_resource exC1Md5 exC1GetDesc exC1Net exC1Key
      = .error (.checksumMismatch (checksumMismatchMsg exC1Key.name "abcd" "ffff"))
    ∧ lcAbsent (ds_get_resources exC1Md5 exC1GetDesc exC1Net exC1Desc false false [] [[]]).cache
        exC1Key :=
  c1_checksum_mismatch_not_cached exC1Md5 exC1GetDesc exC1Net exC1Desc exC1Key
    ⟨"a", none, some "u", "abcd", []⟩ [1, 2] [[]] false false []
    rfl rfl rfl (by decide) (by intro l hl; rw [List.mem_singleton.mp hl]; rfl)
